import Mathlib

/-!
# Login form: Button, Input and LoginForm

A shallow embedding of the three React components of the repository

* `src/components/ui/Button/Button.jsx`
* `src/components/ui/Input/Input.jsx`
* `src/components/forms/LoginForms/LoginForm.jsx`

Rendering is a pure function from props (and state) to a small virtual DOM.
The asynchronous `onSubmit` is split at its single `await`.  Pending timers,
the clock and the calls made to the authentication hook are explicit fields
of the world the component runs in.
-/

namespace LoginUI

/-! ## JavaScript values used by the components -/

/-- JavaScript truthiness of a value that is `undefined` or a string. -/
def truthy : Option String → Bool
  | none => false
  | some s => s != ""

/-- Template-literal conversion of a value that is `undefined` or a string. -/
def templateStr : Option String → String
  | none => "undefined"
  | some s => s

/-- Event handlers and callbacks that appear in the rendered tree. -/
inductive Handler where
  /-- Handler `handleSubmit(onSubmit)` of the form element. -/
  | handleSubmit
  /-- Handler `togglePasswordVisibility`. -/
  | togglePasswordVisibility
  /-- Handler `onChange` returned by `register(field)`. -/
  | registerOnChange (field : String)
  /-- Handler `onBlur` returned by `register(field)`. -/
  | registerOnBlur (field : String)
  /-- Any other handler, identified by a number. -/
  | other (n : Nat)
  deriving DecidableEq, Repr

/-- Value of a JSX attribute. -/
inductive AttrValue where
  | undefined
  | str (s : String)
  | bool (b : Bool)
  | handler (h : Handler)
  deriving DecidableEq, Repr

/-- Attribute value of a prop that is `undefined` or a string. -/
def AttrValue.ofOption : Option String → AttrValue
  | none => AttrValue.undefined
  | some s => AttrValue.str s

/-- A `span` element: its `id`, its `className` and its text. -/
structure Span where
  id : Option String
  className : String
  content : String
  deriving DecidableEq, Repr

/-- Attributes of a JSX element in source order; a later entry for the same
key (an explicit attribute or a spread) overrides an earlier one. -/
abbrev Attrs := List (String × AttrValue)

/-- Effective value of attribute `key`: the last entry wins, and a key that does
not occur is `undefined`. -/
def Attrs.get (attrs : Attrs) (key : String) : AttrValue :=
  match attrs.reverse.find? (fun kv => kv.1 == key) with
  | some kv => kv.2
  | none => AttrValue.undefined

/-- Whether `key` occurs among the attributes. -/
def Attrs.hasKey (attrs : Attrs) (key : String) : Bool :=
  attrs.any (fun kv => kv.1 == key)

/-! ## Button.jsx -/

/-- Props of `Button`, with the defaults of the destructuring pattern. -/
structure ButtonProps where
  children : List String := []
  type : String := "button"
  variant : String := "primary"
  disabled : Bool := false
  loading : Bool := false
  onClick : Option Handler := none
  className : String := ""
  deriving DecidableEq, Repr

/-- The `button` element rendered by `Button`.  It has two child slots:
`loading && <span className="btn-loader">` and `children`. -/
structure ButtonElement where
  type : String
  className : String
  disabled : Bool
  onClick : Option Handler
  loader : Option Span
  children : List String
  deriving DecidableEq, Repr

/-- Component `Button` (Button.jsx, lines 4-24). -/
def Button (p : ButtonProps) : ButtonElement where
  type := p.type
  className := "btn btn-" ++ p.variant ++ " " ++ p.className
  disabled := p.disabled || p.loading
  onClick := p.onClick
  loader := if p.loading then some ⟨none, "btn-loader", "⏳"⟩ else none
  children := p.children

/-! ## Input.jsx -/

/-- Props of `Input`, with the defaults of the destructuring pattern; `rest`
is the `...props` remainder. -/
structure InputProps where
  label : Option String := none
  type : String := "text"
  name : Option String := none
  error : Option String := none
  placeholder : String := ""
  required : Bool := false
  disabled : Bool := false
  rest : Attrs := []
  deriving DecidableEq, Repr

/-- The `label` element of `Input`. -/
structure LabelElement where
  htmlFor : Option String
  className : String
  text : String
  requiredMark : Option Span
  deriving DecidableEq, Repr

/-- The `div.input-group` rendered by `Input`: the optional label, the
attributes of the `input` element, and the optional error line. -/
structure InputView where
  label : Option LabelElement
  input : Attrs
  errorLine : Option Span
  deriving DecidableEq, Repr

/-- Component `Input` (Input.jsx, lines 16-57).  The forwarded `ref` carries
no data and is left out of the attribute list. -/
def Input (p : InputProps) : InputView where
  label :=
    if truthy p.label then
      some
        { htmlFor := p.name
          className := "input-label"
          text := templateStr p.label
          requiredMark := if p.required then some ⟨none, "required", "*"⟩ else none }
    else none
  input :=
    [ ("id", AttrValue.ofOption p.name),
      ("name", AttrValue.ofOption p.name),
      ("type", AttrValue.str p.type),
      ("placeholder", AttrValue.str p.placeholder),
      ("disabled", AttrValue.bool p.disabled),
      ("className", AttrValue.str ("input-field " ++ (if truthy p.error then "input-error" else ""))),
      ("aria-invalid", AttrValue.str (if truthy p.error then "true" else "false")),
      ("aria-describedby",
        if truthy p.error then AttrValue.str (templateStr p.name ++ "-error") else AttrValue.undefined) ]
    ++ p.rest
  errorLine :=
    if truthy p.error then
      some ⟨some (templateStr p.name ++ "-error"), "error-message", templateStr p.error⟩
    else none

/-- The error-line contract of `Input` at props `p`: the error line is
rendered exactly when `error` is truthy; when it is, its id is
`name + "-error"`, the control's `aria-describedby` is that id and
`aria-invalid` is `"true"`; when it is not, there is no error line,
`aria-describedby` is undefined and `aria-invalid` is `"false"`. -/
def InputErrorContract (p : InputProps) : Prop :=
  ((Input p).errorLine.isSome = true ↔ truthy p.error = true) ∧
  (truthy p.error = true →
    (Input p).errorLine.map Span.id = some (some (templateStr p.name ++ "-error")) ∧
    (Input p).input.get "aria-describedby" = AttrValue.str (templateStr p.name ++ "-error") ∧
    (Input p).input.get "aria-invalid" = AttrValue.str "true") ∧
  (truthy p.error = false →
    (Input p).errorLine = none ∧
    (Input p).input.get "aria-describedby" = AttrValue.undefined ∧
    (Input p).input.get "aria-invalid" = AttrValue.str "false")

instance (p : InputProps) : Decidable (InputErrorContract p) := by
  unfold InputErrorContract
  infer_instance

/-! ## Collaborators of LoginForm -/

/-- The record `user` of a successful login. -/
structure User where
  name : String
  email : String
  deriving DecidableEq, Repr

/-- Modelled from the spec: the outcome of `login` of the hook `useAuth`
(`hooks/useAuth`), either `{success: true, user}` or `{success: false}`. -/
inductive LoginResult where
  | ok (user : User)
  | fail
  deriving DecidableEq, Repr

/-- Field `success` of a login outcome. -/
def LoginResult.success : LoginResult → Bool
  | LoginResult.ok _ => true
  | LoginResult.fail => false

/-- Field `user` of a login outcome, undefined when there is none. -/
def LoginResult.user : LoginResult → Option User
  | LoginResult.ok u => some u
  | LoginResult.fail => none

/-- Modelled from the spec: the values `useAuth()` exposes besides `login`,
the current user, the loading flag and the current error string. -/
structure AuthState where
  user : Option User
  isLoading : Bool
  error : Option String
  deriving DecidableEq, Repr

/-- The form values `{email, password}` kept by `useForm`. -/
structure FormValues where
  email : String
  password : String
  deriving DecidableEq, Repr

/-- Field errors `errors.email?.message` and `errors.password?.message`, each
undefined or a message. -/
structure FieldErrors where
  email : Option String
  password : Option String
  deriving DecidableEq, Repr

/-- Modelled from the spec: the two human-readable messages of
`loginValidationSchema` (`./validationSchema`), whose text the spec leaves
open. -/
structure ValidationMessages where
  email : String
  password : String
  deriving DecidableEq, Repr

/-- Modelled from the spec: the address-format check of
`loginValidationSchema`, taken as the conventional pattern
`^[^\s@]+@[^\s@]+\.[^\s@]+$`: no white space, exactly one `@` with a
non-empty local part, and a dot inside the domain with a character on
either side. -/
def emailFormat (s : String) : Bool :=
  let cs := s.toList
  let dom := (cs.dropWhile (fun c => c != '@')).drop 1
  cs.all (fun c => !c.isWhitespace) &&
  cs.count '@' == 1 &&
  !(cs.takeWhile (fun c => c != '@')).isEmpty &&
  ((dom.drop 1).dropLast).contains '.'

/-- Modelled from the spec: the password rule of `loginValidationSchema`,
length at least 6. -/
def passwordRule (s : String) : Bool :=
  decide (6 ≤ s.length)

/-- Modelled from the spec: `yupResolver(loginValidationSchema)` run on the
form values, a message for each field that fails its rule and none for a
field that passes. -/
def loginValidationSchema (m : ValidationMessages) (v : FormValues) : FieldErrors where
  email := if emailFormat v.email then none else some m.email
  password := if passwordRule v.password then none else some m.password

/-- Value `formState.isValid` of `useForm`: the validation of the whole form
reports no error.  It is derived from the result of the resolver on all
current values, not from the errors on display. -/
def formIsValid (e : FieldErrors) : Bool :=
  e.email.isNone && e.password.isNone

/-! ## LoginForm.jsx -/

/-- State owned by the component: the two `useState` cells, and of `useForm`
the field values and `formState.errors`, the errors on display. -/
structure State where
  showPassword : Bool
  successMessage : String
  values : FormValues
  errors : FieldErrors
  deriving DecidableEq, Repr

/-- Callbacks handed to `setTimeout`; the component has one, the arrow function
`() => setSuccessMessage('')`. -/
inductive TimerCallback where
  | clearSuccessMessage
  deriving DecidableEq, Repr

/-- A pending timer: the delay given to `setTimeout`, the time at which it
fires, and its callback. -/
structure Timer where
  delay : Nat
  due : Nat
  callback : TimerCallback
  deriving DecidableEq, Repr

/-- Lines written with `console.log` by `onSubmit` and
`togglePasswordVisibility`. -/
inductive LogEntry where
  | formSubmitted (data : FormValues)
  | passwordVisibility (shown : String)
  deriving DecidableEq, Repr

/-- The component together with what it acts on: the hook state, the clock
(in ms), the pending timers, the `login` calls not yet resolved, every
`login` call made, the console, and whether the component is mounted. -/
structure World where
  ctrl : State
  auth : AuthState
  now : Nat
  timers : List Timer
  pending : List (String × String)
  loginCalls : List (String × String)
  console : List LogEntry
  mounted : Bool
  deriving DecidableEq, Repr

/-- World right after mounting: `useState(false)`, `useState('')`, empty
form values, no error on display, no login in progress. -/
def World.init (user : Option User) : World where
  ctrl :=
    { showPassword := false, successMessage := "", values := ⟨"", ""⟩, errors := ⟨none, none⟩ }
  auth := { user := user, isLoading := false, error := none }
  now := 0
  timers := []
  pending := []
  loginCalls := []
  console := []
  mounted := true

/-- State setter `setSuccessMessage`. -/
def setSuccessMessage (msg : String) (w : World) : World :=
  { w with ctrl := { w.ctrl with successMessage := msg } }

/-- State setter `setShowPassword`. -/
def setShowPassword (b : Bool) (w : World) : World :=
  { w with ctrl := { w.ctrl with showPassword := b } }

/-- Function `reset()` of `useForm`, called without arguments: the form values
go back to their defaults, which are empty, and the errors on display are
cleared. -/
def reset (w : World) : World :=
  { w with ctrl := { w.ctrl with values := ⟨"", ""⟩, errors := ⟨none, none⟩ } }

/-- Function `setTimeout(callback, delay)`; the timer id it returns is
discarded by the caller. -/
def setTimeout (callback : TimerCallback) (delay : Nat) (w : World) : World :=
  { w with timers := w.timers ++ [⟨delay, w.now + delay, callback⟩] }

/-- Function `console.log`. -/
def consoleLog (entry : LogEntry) (w : World) : World :=
  { w with console := w.console ++ [entry] }

/-- Modelled from the spec: the call `login(email, password)` of `useAuth`
up to the point where it suspends; the call is in flight and, as the spec
assumes, the loading flag is true while it is. -/
def login (email password : String) (w : World) : World :=
  { w with
    auth := { w.auth with isLoading := true }
    pending := w.pending ++ [(email, password)]
    loginCalls := w.loginCalls ++ [(email, password)] }

/-- Modelled from the spec: the oldest `login` call in flight resolves with
`result`; the hook publishes the user on success and its current error
string, and the loading flag stays true exactly while another call is in
flight. -/
def loginResolve (result : LoginResult) (error : Option String) (w : World) : World :=
  { w with
    auth :=
      { user := match result with
          | LoginResult.ok u => some u
          | LoginResult.fail => w.auth.user
        isLoading := !w.pending.tail.isEmpty
        error := error }
    pending := w.pending.tail }

/-- Function `onSubmit` up to its `await` (LoginForm.jsx, lines 43-47). -/
def onSubmitCall (data : FormValues) (w : World) : World :=
  login data.email data.password (consoleLog (LogEntry.formSubmitted data) w)

/-- Function `onSubmit` after its `await` (LoginForm.jsx, lines 49-58). -/
def onSubmitResume (result : LoginResult) (w : World) : World :=
  match result with
  | LoginResult.ok user =>
    setTimeout TimerCallback.clearSuccessMessage 5000
      (reset (setSuccessMessage ("Login berhasil! Selamat datang " ++ user.name) w))
  | LoginResult.fail => w

/-- Function `onSubmit` run to completion, the `login` call resolving with
`result` while the hook publishes `error`. -/
def onSubmit (data : FormValues) (result : LoginResult) (error : Option String) (w : World) : World :=
  onSubmitResume result (loginResolve result error (onSubmitCall data w))

/-- Function `togglePasswordVisibility` (LoginForm.jsx, lines 64-67). -/
def togglePasswordVisibility (w : World) : World :=
  consoleLog (LogEntry.passwordVisibility (if !w.ctrl.showPassword then "shown" else "hidden"))
    (setShowPassword (!w.ctrl.showPassword) w)

/-- Running a timer callback. -/
def TimerCallback.run : TimerCallback → World → World
  | TimerCallback.clearSuccessMessage, w => setSuccessMessage "" w

/-- Props returned by `register(field)` besides `name` and `ref`. -/
def register (field : String) : Attrs :=
  [ ("onChange", AttrValue.handler (Handler.registerOnChange field)),
    ("onBlur", AttrValue.handler (Handler.registerOnBlur field)) ]

/-- The state-dependent part of what `LoginForm` renders: the two banners,
the two fields, the visibility toggle and the submit button.  The static
texts and the development-only debug block are left out. -/
structure FormView where
  onSubmit : Handler
  successBanner : Option String
  errorBanner : Option String
  emailInput : InputView
  passwordInput : InputView
  toggleLabel : String
  toggleIcon : String
  toggleOnClick : Handler
  submitButton : ButtonElement
  deriving DecidableEq, Repr

/-- The submit button of `LoginForm` (LoginForm.jsx, lines 136-144) as a
function of `isValid` and `isLoading`. -/
def submitButton (isValid isLoading : Bool) : ButtonElement :=
  Button
    { type := "submit"
      variant := "primary"
      loading := isLoading
      disabled := !isValid || isLoading
      className := "login-button"
      children := [if isLoading then "🔄 Memproses..." else "🚀 Login"] }

/-- The password field of `LoginForm` (LoginForm.jsx, lines 115-123). -/
def passwordInput (showPassword : Bool) (error : Option String) : InputView :=
  Input
    { label := some "Password"
      type := if showPassword then "text" else "password"
      name := some "password"
      error := error
      placeholder := "masukkan password Anda"
      required := true
      rest := register "password" ++ [("autoComplete", AttrValue.str "current-password")] }

/-- The email field of `LoginForm` (LoginForm.jsx, lines 103-111). -/
def emailInput (error : Option String) : InputView :=
  Input
    { label := some "Email Address"
      type := "email"
      name := some "email"
      error := error
      placeholder := "contoh: user@email.com"
      required := true
      rest := register "email" ++ [("autoComplete", AttrValue.str "email")] }

/-- Component `LoginForm`, its render (LoginForm.jsx, lines 81-171).  The
fields get the errors on display, `formState.errors`; the submit button gets
`formState.isValid`. -/
def render (m : ValidationMessages) (w : World) : FormView :=
  let errors := w.ctrl.errors
  let isValid := formIsValid (loginValidationSchema m w.ctrl.values)
  { onSubmit := Handler.handleSubmit
    successBanner :=
      if truthy (some w.ctrl.successMessage) then some ("✅ " ++ w.ctrl.successMessage) else none
    errorBanner :=
      if truthy w.auth.error then some ("❌ " ++ templateStr w.auth.error) else none
    emailInput := emailInput errors.email
    passwordInput := passwordInput w.ctrl.showPassword errors.password
    toggleLabel := if w.ctrl.showPassword then "Sembunyikan password" else "Tampilkan password"
    toggleIcon := if w.ctrl.showPassword then "🙈" else "👁️"
    toggleOnClick := Handler.togglePasswordVisibility
    submitButton := submitButton isValid w.auth.isLoading }

/-! ## The component as a transition system -/

/-- The two fields of the form. -/
inductive Field where
  | email
  | password
  deriving DecidableEq, Repr

/-- What can happen to a mounted form. -/
inductive Event where
  /-- The user changes a field to a new value. -/
  | edit (field : Field) (value : String)
  /-- The user tries to submit: a click on the submit button or Enter in a field. -/
  | submitAttempt
  /-- The oldest `login` call in flight resolves. -/
  | loginResolved (result : LoginResult) (error : Option String)
  /-- The user clicks the visibility toggle. -/
  | toggle
  /-- Time passes and the timers that fall due fire. -/
  | advance (ms : Nat)
  /-- The component is torn down. -/
  | unmount
  deriving DecidableEq, Repr

/-- The `onChange` handler of `register(field)` under `mode: 'onChange'`
(LoginForm.jsx, lines 31-34): `useForm` stores the new value, runs the
resolver on the form values and puts on display the result for the field
that changed; the display of the other field stays as it was. -/
def onFieldChange (m : ValidationMessages) (field : Field) (value : String) (w : World) : World :=
  match field with
  | Field.email =>
    { w with ctrl :=
      { w.ctrl with
        values := { w.ctrl.values with email := value }
        errors :=
          { w.ctrl.errors with
            email := (loginValidationSchema m { w.ctrl.values with email := value }).email } } }
  | Field.password =>
    { w with ctrl :=
      { w.ctrl with
        values := { w.ctrl.values with password := value }
        errors :=
          { w.ctrl.errors with
            password :=
              (loginValidationSchema m { w.ctrl.values with password := value }).password } } }

/-- Function `handleSubmit(onSubmit)` of `useForm`: the values are validated
once more; `onSubmit` is called with them when they are valid, and otherwise
the errors of all fields are put on display. -/
def handleSubmit (m : ValidationMessages) (w : World) : World :=
  if formIsValid (loginValidationSchema m w.ctrl.values) then onSubmitCall w.ctrl.values w
  else { w with ctrl := { w.ctrl with errors := loginValidationSchema m w.ctrl.values } }

/-- A submit attempt.  A form whose submit button is disabled is not
submitted; otherwise the form's `onSubmit` handler runs. -/
def submitAttempt (m : ValidationMessages) (w : World) : World :=
  if (render m w).submitButton.disabled then w else handleSubmit m w

/-- Time advances by `ms`: the timers that are due by then fire in the order
they were scheduled and are removed, the others stay pending. -/
def advance (ms : Nat) (w : World) : World :=
  let t := w.now + ms
  let due := w.timers.filter (fun x => decide (x.due ≤ t))
  let rest := w.timers.filter (fun x => !decide (x.due ≤ t))
  due.foldl (fun acc x => x.callback.run acc) { w with now := t, timers := rest }

/-- Teardown.  Neither effect of the component returns a cleanup function, so
nothing else happens. -/
def unmount (w : World) : World :=
  { w with mounted := false }

/-- One step of the form.  User events reach a mounted form only; a
resolution needs a call in flight. -/
def step (m : ValidationMessages) (w : World) : Event → World
  | Event.edit field value => if w.mounted then onFieldChange m field value w else w
  | Event.submitAttempt => if w.mounted then submitAttempt m w else w
  | Event.loginResolved result error =>
    if w.pending.isEmpty then w else onSubmitResume result (loginResolve result error w)
  | Event.toggle => if w.mounted then togglePasswordVisibility w else w
  | Event.advance ms => advance ms w
  | Event.unmount => unmount w

/-- Running a sequence of events. -/
def run (m : ValidationMessages) (w : World) (events : List Event) : World :=
  events.foldl (step m) w

/-- The worlds reachable from a freshly mounted form. -/
def Reachable (m : ValidationMessages) (w : World) : Prop :=
  ∃ user events, w = run m (World.init user) events

/-- Messages used in the worked examples. -/
def demoMessages : ValidationMessages where
  email := "Format email tidak valid"
  password := "Password minimal 6 karakter"

/-- A user logs in as Alice and, 3000 ms later, as Bob: the events up to the
resolution of the first login. -/
def firstLogin : List Event :=
  [ Event.edit Field.email "user@example.com",
    Event.edit Field.password "123456",
    Event.submitAttempt,
    Event.loginResolved (LoginResult.ok ⟨"Alice", "user@example.com"⟩) none ]

/-- The events that follow, up to the resolution of the second login. -/
def secondLogin : List Event :=
  [ Event.advance 3000,
    Event.edit Field.email "user@example.com",
    Event.edit Field.password "123456",
    Event.submitAttempt,
    Event.loginResolved (LoginResult.ok ⟨"Bob", "user@example.com"⟩) none ]

/-- The form after the user has typed a valid email and password. -/
def filled : World :=
  run demoMessages (World.init none)
    [ Event.edit Field.email "user@example.com",
      Event.edit Field.password "123456" ]

/-- The form after valid input and a submit attempt, the `login` call not
yet resolved. -/
def submitting : World :=
  run demoMessages (World.init none)
    [ Event.edit Field.email "user@example.com",
      Event.edit Field.password "123456",
      Event.submitAttempt ]

/-- The validation contract at a world: the form is valid, with no error on
display for either field, exactly when the email passes the address-format
check and the password has at least 6 characters; a field that fails its
rule has a non-empty message on display and the submit control is disabled. -/
def ValidationContract (m : ValidationMessages) (w : World) : Prop :=
  ((w.ctrl.errors.email = none ∧ w.ctrl.errors.password = none ∧
      formIsValid (loginValidationSchema m w.ctrl.values) = true) ↔
    (emailFormat w.ctrl.values.email = true ∧ 6 ≤ w.ctrl.values.password.length)) ∧
  (emailFormat w.ctrl.values.email = false →
    truthy w.ctrl.errors.email = true ∧ (render m w).emailInput.errorLine.isSome = true ∧
    (render m w).submitButton.disabled = true) ∧
  (w.ctrl.values.password.length < 6 →
    truthy w.ctrl.errors.password = true ∧ (render m w).passwordInput.errorLine.isSome = true ∧
    (render m w).submitButton.disabled = true)

instance (m : ValidationMessages) (w : World) : Decidable (ValidationContract m w) := by
  unfold ValidationContract
  infer_instance

/-- The invariant behind single submission: at most one `login` call is in
flight, and the loading flag tells whether one is. -/
def SingleFlight (w : World) : Prop :=
  w.pending.length ≤ 1 ∧ w.auth.isLoading = !w.pending.isEmpty

instance (w : World) : Decidable (SingleFlight w) := by
  unfold SingleFlight
  infer_instance


end LoginUI

/-! ## Properties -/

namespace LoginUI

/-! ### Button and the submit control -/

/-- C8: for all props, `Button` renders a control whose `disabled` attribute
is `disabled || loading`, whose `btn-loader` element is present if and only if
`loading` is true, and whose click handler is the supplied `onClick`. -/
theorem Button_contract (p : ButtonProps) :
    (Button p).disabled = (p.disabled || p.loading) ∧
    ((Button p).loader.isSome = true ↔ p.loading = true) ∧
    (Button p).loader = (if p.loading then some ⟨none, "btn-loader", "⏳"⟩ else none) ∧
    (Button p).onClick = p.onClick := by
  refine ⟨rfl, ?_, rfl, rfl⟩
  cases h : p.loading <;> simp [Button, h]

/-- C1: the submit control rendered by `LoginForm` through `Button` is enabled
if and only if `isValid` is true and `isLoading` is false, for the button as
a function of the two flags and for the button in every render of the form. -/
theorem submit_enabled_iff (isValid isLoading : Bool) (m : ValidationMessages) (w : World) :
    ((submitButton isValid isLoading).disabled = false ↔ isValid = true ∧ isLoading = false) ∧
    ((render m w).submitButton.disabled = false ↔
      formIsValid (loginValidationSchema m w.ctrl.values) = true ∧ w.auth.isLoading = false) := by
  constructor
  · cases isValid <;> cases isLoading <;> simp [submitButton, Button]
  · cases h1 : formIsValid (loginValidationSchema m w.ctrl.values) <;>
      cases h2 : w.auth.isLoading <;> simp [render, submitButton, Button, h1, h2]

/-! ### Input -/

/-- An attribute that the spread props do not mention keeps the value given
before the spread. -/
theorem Attrs.get_append_of_not_hasKey (base rest : Attrs) (key : String)
    (h : Attrs.hasKey rest key = false) :
    Attrs.get (base ++ rest) key = Attrs.get base key := by
  have hnone : rest.reverse.find? (fun kv => kv.1 == key) = none := by
    rw [List.find?_eq_none]
    intro x hx
    simp only [Attrs.hasKey, List.any_eq_false] at h
    exact h x (List.mem_reverse.mp hx)
  unfold Attrs.get
  rw [List.reverse_append, List.find?_append, hnone]
  rfl

/-- C9, as stated, fails: a caller that passes `aria-invalid` among the
remaining props overrides the value computed from `error`, because the
spread comes last. -/
theorem Input_contract_counterexample :
    ¬ InputErrorContract
        { name := some "email", error := some "Email wajib diisi",
          rest := [("aria-invalid", AttrValue.str "false")] } := by
  decide

/-- C9, amended: when the remaining props set neither `aria-invalid` nor
`aria-describedby`, `Input` renders the error line if and only if `error` is
a non-empty string; then the line's id, `name + "-error"`, is the control's
`aria-describedby` and `aria-invalid` is `"true"`, and otherwise there is no
error line, `aria-describedby` is undefined and `aria-invalid` is `"false"`. -/
theorem Input_contract (p : InputProps)
    (h1 : Attrs.hasKey p.rest "aria-invalid" = false)
    (h2 : Attrs.hasKey p.rest "aria-describedby" = false) :
    InputErrorContract p := by
  have e1 := fun base => Attrs.get_append_of_not_hasKey base p.rest "aria-invalid" h1
  have e2 := fun base => Attrs.get_append_of_not_hasKey base p.rest "aria-describedby" h2
  unfold InputErrorContract
  cases h : truthy p.error
  · refine ⟨by simp [Input, h], by simp, fun _ => ⟨by simp [Input, h], ?_, ?_⟩⟩
    · simp only [Input, h, e2]; rfl
    · simp only [Input, h, e1]; rfl
  · refine ⟨by simp [Input, h], fun _ => ⟨by simp [Input, h], ?_, ?_⟩, by simp⟩
    · simp only [Input, h, e2]; rfl
    · simp only [Input, h, e1]; rfl

/-- The password field of the login form, with an error, meets the contract. -/
theorem Input_contract_witness :
    InputErrorContract
      { label := some "Password", type := "password", name := some "password",
        error := some "Password minimal 6 karakter", required := true,
        rest := register "password" ++ [("autoComplete", AttrValue.str "current-password")] } :=
  Input_contract _ (by decide) (by decide)

/-! ### Password visibility -/

/-- C7: toggling the password visibility twice gives back the original
`showPassword` and the original display type of the password field, which is
`password` when `showPassword` is false and `text` when it is true. -/
theorem toggle_twice (m : ValidationMessages) (w : World) :
    (togglePasswordVisibility (togglePasswordVisibility w)).ctrl.showPassword
      = w.ctrl.showPassword ∧
    (render m (togglePasswordVisibility (togglePasswordVisibility w))).passwordInput.input.get "type"
      = (render m w).passwordInput.input.get "type" ∧
    (render m w).passwordInput.input.get "type"
      = AttrValue.str (if w.ctrl.showPassword then "text" else "password") := by
  have h : (togglePasswordVisibility (togglePasswordVisibility w)).ctrl = w.ctrl := by
    simp [togglePasswordVisibility, setShowPassword, consoleLog]
  refine ⟨by rw [h], ?_, rfl⟩
  simp only [render, h]

/-- C10: `togglePasswordVisibility` negates `showPassword` and changes nothing
else: form values, field errors, validity, success message, pending timers
and the hook's values are the same, and no `login` call is made. -/
theorem toggle_frame (m : ValidationMessages) (w : World) :
    (togglePasswordVisibility w).ctrl.showPassword = !w.ctrl.showPassword ∧
    (togglePasswordVisibility w).ctrl.values = w.ctrl.values ∧
    (togglePasswordVisibility w).ctrl.errors = w.ctrl.errors ∧
    loginValidationSchema m (togglePasswordVisibility w).ctrl.values
      = loginValidationSchema m w.ctrl.values ∧
    formIsValid (loginValidationSchema m (togglePasswordVisibility w).ctrl.values)
      = formIsValid (loginValidationSchema m w.ctrl.values) ∧
    (togglePasswordVisibility w).ctrl.successMessage = w.ctrl.successMessage ∧
    (togglePasswordVisibility w).timers = w.timers ∧
    (togglePasswordVisibility w).auth = w.auth ∧
    (togglePasswordVisibility w).loginCalls = w.loginCalls ∧
    (togglePasswordVisibility w).pending = w.pending ∧
    (togglePasswordVisibility w).now = w.now ∧
    (togglePasswordVisibility w).mounted = w.mounted :=
  ⟨rfl, rfl, rfl, rfl, rfl, rfl, rfl, rfl, rfl, rfl, rfl, rfl⟩

/-! ### Submission -/

/-- Firing a batch of timers: nothing happens when the batch is empty, and
otherwise the success message is cleared. -/
theorem foldl_run (due : List Timer) (w : World) :
    due.foldl (fun acc x => x.callback.run acc) w
      = if due.isEmpty then w else setSuccessMessage "" w := by
  induction due generalizing w with
  | nil => rfl
  | cons t ts ih =>
    rw [List.foldl_cons, ih]
    cases t.callback
    cases ts <;> simp [TimerCallback.run, setSuccessMessage]

/-- C2: when `login` resolves with `success` true and a user named `n`,
`onSubmit` sets the success message to "Login berhasil! Selamat datang "
followed by `n`, resets the form values to empty, and schedules one timer
with delay 5000 ms; that timer's callback sets the success message to the
empty string, which is what the form holds once 5000 ms have passed. -/
theorem onSubmit_success (data : FormValues) (result : LoginResult) (n : String)
    (error : Option String) (w : World)
    (hs : result.success = true) (hn : result.user.map User.name = some n) :
    (onSubmit data result error w).ctrl.successMessage
      = "Login berhasil! Selamat datang " ++ n ∧
    (onSubmit data result error w).ctrl.values = ⟨"", ""⟩ ∧
    (onSubmit data result error w).timers
      = w.timers ++ [⟨5000, w.now + 5000, TimerCallback.clearSuccessMessage⟩] ∧
    (∀ x : World, (TimerCallback.clearSuccessMessage.run x).ctrl.successMessage = "") ∧
    (advance 5000 (onSubmit data result error w)).ctrl.successMessage = "" := by
  cases result with
  | fail => cases hs
  | ok u =>
    have hu : u.name = n := by
      simpa [LoginResult.user] using hn
    subst hu
    refine ⟨rfl, rfl, rfl, fun _ => rfl, ?_⟩
    unfold advance
    rw [foldl_run]
    have hmem : (⟨5000, w.now + 5000, TimerCallback.clearSuccessMessage⟩ : Timer) ∈
        (onSubmit data (LoginResult.ok u) error w).timers.filter
          (fun x => decide (x.due ≤ (onSubmit data (LoginResult.ok u) error w).now + 5000)) := by
      rw [List.mem_filter]
      refine ⟨?_, ?_⟩
      · show _ ∈ w.timers ++ [(⟨5000, w.now + 5000, TimerCallback.clearSuccessMessage⟩ : Timer)]
        exact List.mem_append_right _ (List.mem_singleton.mpr rfl)
      · show decide (w.now + 5000 ≤ w.now + 5000) = true
        simp
    have hne : ((onSubmit data (LoginResult.ok u) error w).timers.filter
        (fun x => decide (x.due ≤ (onSubmit data (LoginResult.ok u) error w).now + 5000))).isEmpty
          = false := by
      cases hl : (onSubmit data (LoginResult.ok u) error w).timers.filter
        (fun x => decide (x.due ≤ (onSubmit data (LoginResult.ok u) error w).now + 5000)) with
      | nil => rw [hl] at hmem; cases hmem
      | cons a l => rfl
    simp only [hne]
    rfl

/-- Valid input submitted, and `login` resolving with success for Alice: the
message welcomes Alice, the form is cleared, one timer of 5000 ms is pending,
and after 5000 ms the message is empty. -/
theorem onSubmit_success_witness :
    (onSubmit ⟨"user@example.com", "123456"⟩ (LoginResult.ok ⟨"Alice", "user@example.com"⟩)
      none filled).ctrl.successMessage = "Login berhasil! Selamat datang " ++ "Alice" ∧
    (onSubmit ⟨"user@example.com", "123456"⟩ (LoginResult.ok ⟨"Alice", "user@example.com"⟩)
      none filled).ctrl.values = ⟨"", ""⟩ ∧
    (onSubmit ⟨"user@example.com", "123456"⟩ (LoginResult.ok ⟨"Alice", "user@example.com"⟩)
      none filled).timers
      = filled.timers ++ [⟨5000, filled.now + 5000, TimerCallback.clearSuccessMessage⟩] ∧
    (∀ x : World, (TimerCallback.clearSuccessMessage.run x).ctrl.successMessage = "") ∧
    (advance 5000 (onSubmit ⟨"user@example.com", "123456"⟩
      (LoginResult.ok ⟨"Alice", "user@example.com"⟩) none filled)).ctrl.successMessage = "" :=
  onSubmit_success ⟨"user@example.com", "123456"⟩ (LoginResult.ok ⟨"Alice", "user@example.com"⟩)
    "Alice" none filled rfl rfl

/-- C4: when `login` resolves with `success` false, `onSubmit` leaves the
state of the component as it was (form values, success message, visibility
flag) and schedules no timer; the success banner is the one shown before and
the text of the error banner is the error string published by the hook. -/
theorem onSubmit_failure (m : ValidationMessages) (data : FormValues) (result : LoginResult)
    (error : Option String) (w : World) (hs : result.success = false) :
    (onSubmit data result error w).ctrl = w.ctrl ∧
    (onSubmit data result error w).timers = w.timers ∧
    (render m (onSubmit data result error w)).successBanner = (render m w).successBanner ∧
    (render m (onSubmit data result error w)).errorBanner
      = (if truthy error then some ("❌ " ++ templateStr error) else none) := by
  cases result with
  | ok u => cases hs
  | fail => exact ⟨rfl, rfl, rfl, rfl⟩

/-- Valid input submitted, and `login` resolving without success while the
hook reports "Login gagal": the form keeps its values and shows that error. -/
theorem onSubmit_failure_witness :
    (onSubmit ⟨"user@example.com", "123456"⟩ LoginResult.fail (some "Login gagal") filled).ctrl
      = filled.ctrl ∧
    (onSubmit ⟨"user@example.com", "123456"⟩ LoginResult.fail (some "Login gagal") filled).timers
      = filled.timers ∧
    (render demoMessages
      (onSubmit ⟨"user@example.com", "123456"⟩ LoginResult.fail (some "Login gagal")
        filled)).successBanner = (render demoMessages filled).successBanner ∧
    (render demoMessages
      (onSubmit ⟨"user@example.com", "123456"⟩ LoginResult.fail (some "Login gagal")
        filled)).errorBanner
      = (if truthy (some "Login gagal") then some ("❌ " ++ templateStr (some "Login gagal"))
          else none) :=
  onSubmit_failure demoMessages ⟨"user@example.com", "123456"⟩ LoginResult.fail
    (some "Login gagal") filled rfl

/-! ### Validation -/

/-- C6, as stated, fails.  In a freshly mounted form both values are empty:
the email fails the format check and the password is shorter than 6, yet no
error is on display and neither field renders an error line.  The same holds
after the reset that follows a successful login. -/
theorem validation_counterexample :
    ¬ ValidationContract demoMessages (World.init none) ∧
    (World.init none).ctrl.values = ⟨"", ""⟩ ∧
    (render demoMessages (World.init none)).emailInput.errorLine = none ∧
    (render demoMessages (World.init none)).passwordInput.errorLine = none ∧
    ¬ ValidationContract demoMessages (run demoMessages (World.init none) firstLogin) := by
  decide

/-- C6, amended: once the user has changed both fields, to `email` and
`password` in either order, the form is valid, with no error on display,
exactly when the email passes the address-format check and the password has
at least 6 characters; a field that fails its rule has the schema's non-empty
message on display, rendered as an error line, and the submit control is
disabled.  In every state `isValid` is true exactly when both rules pass.
After mount and after `reset()` no error is on display.  The address check
accepts "user@example.com" and rejects "bad-email". -/
theorem validation_contract (m : ValidationMessages) (w : World) (email password : String)
    (hw : w.mounted = true) (he : m.email ≠ "") (hp : m.password ≠ "") :
    (run m w [Event.edit Field.email email, Event.edit Field.password password]).ctrl.values
      = ⟨email, password⟩ ∧
    ValidationContract m
      (run m w [Event.edit Field.email email, Event.edit Field.password password]) ∧
    (run m w [Event.edit Field.password password, Event.edit Field.email email]).ctrl.values
      = ⟨email, password⟩ ∧
    ValidationContract m
      (run m w [Event.edit Field.password password, Event.edit Field.email email]) ∧
    (run m w [Event.edit Field.email email, Event.edit Field.password password]).ctrl.errors
      = ⟨if emailFormat email then none else some m.email,
         if 6 ≤ password.length then none else some m.password⟩ ∧
    (formIsValid (loginValidationSchema m w.ctrl.values) = true ↔
      emailFormat w.ctrl.values.email = true ∧ 6 ≤ w.ctrl.values.password.length) ∧
    (reset w).ctrl.errors = ⟨none, none⟩ ∧
    (∀ user, (World.init user).ctrl.errors = ⟨none, none⟩) ∧
    emailFormat "user@example.com" = true ∧
    emailFormat "bad-email" = false := by
  have hte : truthy (some m.email) = true := by simpa [truthy] using he
  have htp : truthy (some m.password) = true := by simpa [truthy] using hp
  refine ⟨?_, ?_, ?_, ?_, ?_, ?_, rfl, fun _ => rfl, by decide, by decide⟩
  · simp [run, step, hw, onFieldChange]
  · rcases Nat.lt_or_ge password.length 6 with hl | hl
    · have h2 : passwordRule password = false := by simp [passwordRule, hl]
      have hn : ¬ 6 ≤ password.length := Nat.not_le.mpr hl
      cases h1 : emailFormat email <;>
        simp [ValidationContract, run, step, hw, onFieldChange, loginValidationSchema,
          formIsValid, render, emailInput, passwordInput, Input, submitButton, Button,
          h1, h2, hl, hn, hte, htp]
    · have h2 : passwordRule password = true := by simp [passwordRule, hl]
      have hn : ¬ password.length < 6 := Nat.not_lt.mpr hl
      cases h1 : emailFormat email <;>
        simp [ValidationContract, run, step, hw, onFieldChange, loginValidationSchema,
          formIsValid, render, emailInput, passwordInput, Input, submitButton, Button,
          h1, h2, hl, hn, hte, htp]
  · simp [run, step, hw, onFieldChange]
  · rcases Nat.lt_or_ge password.length 6 with hl | hl
    · have h2 : passwordRule password = false := by simp [passwordRule, hl]
      have hn : ¬ 6 ≤ password.length := Nat.not_le.mpr hl
      cases h1 : emailFormat email <;>
        simp [ValidationContract, run, step, hw, onFieldChange, loginValidationSchema,
          formIsValid, render, emailInput, passwordInput, Input, submitButton, Button,
          h1, h2, hl, hn, hte, htp]
    · have h2 : passwordRule password = true := by simp [passwordRule, hl]
      have hn : ¬ password.length < 6 := Nat.not_lt.mpr hl
      cases h1 : emailFormat email <;>
        simp [ValidationContract, run, step, hw, onFieldChange, loginValidationSchema,
          formIsValid, render, emailInput, passwordInput, Input, submitButton, Button,
          h1, h2, hl, hn, hte, htp]
  · rcases Nat.lt_or_ge password.length 6 with hl | hl
    · have h2 : passwordRule password = false := by simp [passwordRule, hl]
      have hn : ¬ 6 ≤ password.length := Nat.not_le.mpr hl
      cases h1 : emailFormat email <;>
        simp [run, step, hw, onFieldChange, loginValidationSchema, h1, h2, hn]
    · have h2 : passwordRule password = true := by simp [passwordRule, hl]
      cases h1 : emailFormat email <;>
        simp [run, step, hw, onFieldChange, loginValidationSchema, h1, h2, hl]
  · cases h1 : emailFormat w.ctrl.values.email <;> cases h2 : passwordRule w.ctrl.values.password <;>
      simp [formIsValid, loginValidationSchema, h1, h2] <;>
      simpa [passwordRule] using h2

/-- The user types "bad-email" and "123456" into a fresh form: the email
field shows its message and the submit control is disabled. -/
theorem validation_contract_witness :
    (run demoMessages (World.init none)
      [Event.edit Field.email "bad-email", Event.edit Field.password "123456"]).ctrl.errors
      = ⟨some "Format email tidak valid", none⟩ ∧
    (render demoMessages (run demoMessages (World.init none)
      [Event.edit Field.email "bad-email", Event.edit Field.password "123456"])).submitButton.disabled
      = true ∧
    ValidationContract demoMessages (run demoMessages (World.init none)
      [Event.edit Field.email "bad-email", Event.edit Field.password "123456"]) :=
  ⟨by decide, by decide,
    (validation_contract demoMessages (World.init none) "bad-email" "123456" rfl
      (by decide) (by decide)).2.1⟩

/-! ### The auto-clear timer -/

/-- C3, as stated, fails.  Alice's login succeeds at time 0 and Bob's at
3000 ms.  The timer of the first submission is still pending after the second
submission has started and resolved, and also after a teardown; at 5000 ms it
fires and clears Bob's message, whose own timer is due at 8000 ms. -/
theorem stale_timer_counterexample :
    (run demoMessages (World.init none) (firstLogin ++ secondLogin)).ctrl.successMessage
      = "Login berhasil! Selamat datang Bob" ∧
    (run demoMessages (World.init none) (firstLogin ++ secondLogin)).timers
      = [⟨5000, 5000, TimerCallback.clearSuccessMessage⟩,
         ⟨5000, 8000, TimerCallback.clearSuccessMessage⟩] ∧
    (run demoMessages (World.init none) (firstLogin ++ [Event.unmount])).timers
      = [⟨5000, 5000, TimerCallback.clearSuccessMessage⟩] ∧
    (run demoMessages (World.init none)
      (firstLogin ++ secondLogin ++ [Event.advance 2000])).ctrl.successMessage = "" ∧
    (run demoMessages (World.init none) (firstLogin ++ secondLogin ++ [Event.advance 2000])).now
      = 5000 ∧
    (run demoMessages (World.init none) (firstLogin ++ secondLogin ++ [Event.advance 2000])).timers
      = [⟨5000, 8000, TimerCallback.clearSuccessMessage⟩] := by
  decide

/-- Firing timers changes neither the pending timers nor the calls in flight
nor the hook's values. -/
theorem advance_frame (ms : Nat) (w : World) :
    (advance ms w).timers = w.timers.filter (fun x => !decide (x.due ≤ w.now + ms)) ∧
    (advance ms w).pending = w.pending ∧
    (advance ms w).auth = w.auth ∧
    (advance ms w).loginCalls = w.loginCalls := by
  unfold advance
  simp only [foldl_run]
  split <;> simp [setSuccessMessage]

/-- C3, amended: a timer scheduled by a successful submission is not
invalidated by any later event.  It stays pending through an edit, the start
of a new submission, a login resolution, a visibility toggle and a teardown,
and through the passing of time that does not reach its due time. -/
theorem timers_persist (m : ValidationMessages) (w : World) (e : Event) (t : Timer)
    (ht : t ∈ w.timers) (hdue : ∀ ms, e = Event.advance ms → w.now + ms < t.due) :
    t ∈ (step m w e).timers := by
  cases e with
  | edit field value =>
    simp only [step]
    split
    · cases field <;> exact ht
    · exact ht
  | submitAttempt =>
    simp only [step, submitAttempt, handleSubmit]
    split
    · split
      · exact ht
      · split
        · exact ht
        · exact ht
    · exact ht
  | loginResolved result error =>
    simp only [step]
    split
    · exact ht
    · cases result with
      | ok u => exact List.mem_append_left _ ht
      | fail => exact ht
  | toggle =>
    simp only [step]
    split <;> exact ht
  | advance ms =>
    simp only [step]
    rw [(advance_frame ms w).1, List.mem_filter]
    refine ⟨ht, ?_⟩
    have := hdue ms rfl
    simp only [Bool.not_eq_true', decide_eq_false_iff_not, not_le]
    exact this
  | unmount => exact ht

/-- Alice's timer, pending after her login, is still pending after a teardown. -/
theorem timers_persist_witness :
    (⟨5000, 5000, TimerCallback.clearSuccessMessage⟩ : Timer)
      ∈ (step demoMessages (run demoMessages (World.init none) firstLogin) Event.unmount).timers :=
  timers_persist demoMessages (run demoMessages (World.init none) firstLogin) Event.unmount
    ⟨5000, 5000, TimerCallback.clearSuccessMessage⟩ (by decide) (by intro ms h; cases h)

/-! ### Single submission -/

/-- A freshly mounted form has no call in flight. -/
theorem init_singleFlight (user : Option User) : SingleFlight (World.init user) :=
  ⟨Nat.zero_le _, rfl⟩

/-- Every step keeps the invariant. -/
theorem step_singleFlight (m : ValidationMessages) (w : World) (e : Event)
    (h : SingleFlight w) : SingleFlight (step m w e) := by
  obtain ⟨hlen, hload⟩ := h
  cases e with
  | edit field value =>
    simp only [step]
    split
    · cases field <;> exact ⟨hlen, hload⟩
    · exact ⟨hlen, hload⟩
  | submitAttempt =>
    simp only [step, submitAttempt, handleSubmit]
    split
    · split
      · exact ⟨hlen, hload⟩
      · rename_i hdis
        split
        · have hl : w.auth.isLoading = false := by
            cases hl : w.auth.isLoading
            · rfl
            · exact absurd (by simp [render, submitButton, Button, hl]) hdis
          have hp : w.pending = [] := by
            rw [hl] at hload
            cases hw : w.pending with
            | nil => rfl
            | cons a l => rw [hw] at hload; cases hload
          simp [SingleFlight, onSubmitCall, login, consoleLog, hp]
        · exact ⟨hlen, hload⟩
    · exact ⟨hlen, hload⟩
  | loginResolved result error =>
    simp only [step]
    split
    · exact ⟨hlen, hload⟩
    · have ht : w.pending.tail = [] := by
        cases hw : w.pending with
        | nil => rfl
        | cons a l =>
          rw [hw] at hlen
          cases l with
          | nil => rfl
          | cons b l2 => simp at hlen
      cases result <;>
        simp [SingleFlight, onSubmitResume, loginResolve, setTimeout, reset, setSuccessMessage, ht]
  | toggle =>
    simp only [step]
    split <;> exact ⟨hlen, hload⟩
  | advance ms =>
    simp only [step, SingleFlight]
    rw [(advance_frame ms w).2.1, (advance_frame ms w).2.2.1]
    exact ⟨hlen, hload⟩
  | unmount => exact ⟨hlen, hload⟩

/-- Every run keeps the invariant. -/
theorem run_singleFlight (m : ValidationMessages) (events : List Event) (w : World)
    (h : SingleFlight w) : SingleFlight (run m w events) := by
  induction events generalizing w with
  | nil => exact h
  | cons e es ih => exact ih (step m w e) (step_singleFlight m w e h)

/-- C5: in every reachable state at most one `login` call is in flight; while
one is, the submit control is disabled and a submit attempt changes nothing,
so `login` is not called again. -/
theorem single_submission (m : ValidationMessages) (w : World) (h : Reachable m w) :
    w.pending.length ≤ 1 ∧
    (w.pending ≠ [] →
      (render m w).submitButton.disabled = true ∧
      step m w Event.submitAttempt = w ∧
      (step m w Event.submitAttempt).loginCalls = w.loginCalls) := by
  obtain ⟨user, events, rfl⟩ := h
  obtain ⟨hlen, hload⟩ := run_singleFlight m events (World.init user) (init_singleFlight user)
  refine ⟨hlen, fun hne => ?_⟩
  have hl : (run m (World.init user) events).auth.isLoading = true := by
    rw [hload]
    cases hp : (run m (World.init user) events).pending with
    | nil => exact absurd hp hne
    | cons a l => rfl
  have hdis : (render m (run m (World.init user) events)).submitButton.disabled = true := by
    simp [render, submitButton, Button, hl]
  have hstep : step m (run m (World.init user) events) Event.submitAttempt
      = run m (World.init user) events := by
    simp only [step, submitAttempt, hdis]
    split <;> rfl
  exact ⟨hdis, hstep, by rw [hstep]⟩

/-- The form with a valid submission in flight: one call is pending, the
submit control is disabled and a second attempt is a no-op. -/
theorem single_submission_witness :
    submitting.pending = [("user@example.com", "123456")] ∧
    (submitting.pending.length ≤ 1 ∧
      (submitting.pending ≠ [] →
        (render demoMessages submitting).submitButton.disabled = true ∧
        step demoMessages submitting Event.submitAttempt = submitting ∧
        (step demoMessages submitting Event.submitAttempt).loginCalls = submitting.loginCalls)) :=
  ⟨by decide, single_submission demoMessages submitting ⟨none, _, rfl⟩⟩

end LoginUI
